import Mathlib

/-!
Shallow embedding of the dtc-mcp-server document-processing core
(src/integrations/aparavi/client.py, src/tools/document_processor.py,
src/tools/llama_parse.py) and proofs about the claims of the
specification.  Python dictionaries are modelled as association lists of
string keys and JSON values, Python exceptions as an `Except` error type,
and the remote HTTP backend as an oracle function supplied to each
embedded operation.
-/

/-- JSON-like values, the payloads that flow through the client.
Python dicts are association lists preserving insertion order (lookup
takes the first binding, as Python dicts have unique keys). -/
inductive JVal where
  | null
  | bool (b : Bool)
  | num (q : ℚ)
  | str (s : String)
  | arr (xs : List JVal)
  | obj (fields : List (String × JVal))

/-- Python truthiness of a value: None, False, 0, empty string, empty
list and empty dict are falsy, everything else is truthy. -/
def JVal.truthy : JVal → Bool
  | .null => false
  | .bool b => b
  | .num q => q != 0
  | .str s => s ≠ ""
  | .arr xs => !xs.isEmpty
  | .obj fs => !fs.isEmpty

/-- Dictionary lookup, `d.get(k)`: first binding wins. -/
def dictGet (fs : List (String × JVal)) (k : String) : Option JVal :=
  match fs with
  | [] => none
  | (k2, v) :: t => if k2 = k then some v else dictGet t k

/-- Dictionary update, `d[k] = v`: replaces the value in place when the
key is present (Python preserves the original insertion position) and
appends a new binding at the end otherwise (also matching `setdefault`
followed by an update). -/
def dictSet (fs : List (String × JVal)) (k : String) (v : JVal) :
    List (String × JVal) :=
  match fs with
  | [] => [(k, v)]
  | (k2, v2) :: t => if k2 = k then (k2, v) :: t else (k2, v2) :: dictSet t k v

/-- Exceptions that the embedded code can raise.  The first six mirror
src/integrations/aparavi/exceptions.py; the rest are the Python built-in
exceptions that the source can raise (ValueError for the threads
precondition and unparsable JSON bodies, TypeError for call-signature
mismatches, FileNotFoundError from the facade, KeyError and
AttributeError from dynamic dictionary navigation). -/
inductive PyErr where
  | aparaviError (msg : String)
  | authenticationError (msg : String)
  | validationError (msg : String)
  | taskNotFoundError (msg : String)
  | pipelineError (msg : String)
  | taskTimeoutError (msg : String)
  | valueError (msg : String)
  | typeError (msg : String)
  | fileNotFoundError (msg : String)
  | keyError (msg : String)
  | attributeError (msg : String)
deriving DecidableEq

/-- Message carried by an exception, the model of `str(e)`. -/
def pyErrMsg : PyErr → String
  | .aparaviError m => m
  | .authenticationError m => m
  | .validationError m => m
  | .taskNotFoundError m => m
  | .pipelineError m => m
  | .taskTimeoutError m => m
  | .valueError m => m
  | .typeError m => m
  | .fileNotFoundError m => m
  | .keyError m => m
  | .attributeError m => m

/-- One HTTP exchange as seen by `_make_request`: either a response with
a status code, an optional parsed JSON body (`none` when `.json()` would
fail to parse) and the raw body text, or a transport-level failure
(`requests.exceptions.RequestException`). -/
inductive HttpResp where
  | http (code : Nat) (body : Option JVal) (text : String)
  | netError (msg : String)

/-- A request record for observing which network calls were made. -/
structure HttpReq where
  method : String
  endpoint : String
  params : List (String × String)
deriving DecidableEq

/-- Containment scan over character lists: the needle occurs as a
contiguous run somewhere in the haystack. -/
def listHasRun (needle : List Char) : List Char → Bool
  | [] => needle.isEmpty
  | c :: t => needle.isPrefixOf (c :: t) || listHasRun needle t

/-- Case-insensitive substring test used by the transport layer:
`"not found" in msg.lower()` (lowering applied character-wise; the
needle itself is ASCII so this matches the Python semantics). -/
def containsNotFound (s : String) : Bool :=
  listHasRun "not found".toList (s.toList.map Char.toLower)

/-- Classification of a 500 body by client.py lines 386-394: parse the
JSON body, read `error.message` and report the message when it contains
"not found" case-insensitively.  Every failure of this navigation
(unparsable body via ValueError, non-dict body, null or non-dict `error`
value, missing or non-string `message` - each an AttributeError in the
source) is absorbed by the `except (ValueError, AttributeError): pass`
and yields `none`, falling through to the generic branch. -/
def notFound500 (body : Option JVal) : Option String :=
  match body with
  | some (.obj fs) =>
    match dictGet fs "error" with
    | some (.obj efs) =>
      match dictGet efs "message" with
      | some (.str m) => if containsNotFound m then some m else none
      | _ => none
    | some _ => none
    | none => none
  | _ => none

/-- AparaviClient._make_request (client.py lines 341-407): maps the HTTP
response to either the parsed JSON body or a typed error.  Checked in
source order: 401, 422, the 500 not-found heuristic, then any status of
at least 400; transport failures become a generic AparaviError.  A
success response whose body fails to parse surfaces the ValueError of
`response.json()`. -/
def make_request : HttpResp → Except PyErr JVal
  | .netError m => .error (.aparaviError ("Request failed: " ++ m))
  | .http code body text =>
    if code = 401 then
      .error (.authenticationError "Invalid API key or authentication failed")
    else if code = 422 then
      .error (.validationError ("Validation error: " ++ text))
    else
      match (if code = 500 then notFound500 body else none) with
      | some m => .error (.taskNotFoundError m)
      | none =>
        if 400 ≤ code then
          .error (.aparaviError ("API error " ++ toString code ++ ": " ++ text))
        else
          match body with
          | some j => .ok j
          | none => .error (.valueError "response body is not valid JSON")

/-- ResultBase (models.py): the uniform response envelope.  The `status`
field keeps the raw JSON value because the source never enforces that it
is a string. -/
structure ResultBase where
  status : JVal
  data : JVal
  error : JVal
  metrics : JVal

/-- Construction `ResultBase(status=response["status"], data=response.get("data"), ...)`
used throughout client.py: a missing `status` key raises KeyError, a
non-dict response raises TypeError at the subscript. -/
def resultBaseOf (j : JVal) : Except PyErr ResultBase :=
  match j with
  | .obj fs =>
    match dictGet fs "status" with
    | some s =>
      .ok ⟨s, (dictGet fs "data").getD .null, (dictGet fs "error").getD .null,
           (dictGet fs "metrics").getD .null⟩
    | none => .error (.keyError "status")
  | _ => .error (.typeError "response is not a dict")

/-- The test `result.status == "Error"` from client.py. -/
def isErrorStatus : JVal → Bool
  | .str s => s = "Error"
  | _ => false

/-- AparaviClient.validate_pipe (client.py lines 409-444): one POST to
/pipe/validate; an envelope whose status is "Error" raises PipelineError.
The HTTP exchange is supplied as the oracle response. -/
def validate_pipe (resp : HttpResp) : Except PyErr ResultBase :=
  match make_request resp with
  | .error e => .error e
  | .ok j =>
    match resultBaseOf j with
    | .error e => .error e
    | .ok r =>
      if isErrorStatus r.status then
        .error (.pipelineError "Pipeline validation failed")
      else
        .ok r

/-- Query-parameter construction for the task-creation call (client.py
lines 255-261).  `if name:` and `if threads:` use Python truthiness, so
an empty name and a zero thread count are silently dropped; a truthy
thread count outside [1,16] raises ValueError.  Parameter values are
recorded as strings in the request trace. -/
def nameParams : Option String → List (String × String)
  | none => []
  | some n => if n = "" then [] else [("name", n)]

/-- Thread-count handling of client.py lines 258-261: `if threads:` skips
the range check entirely when threads is None or 0; otherwise the check
`not 1 <= threads <= 16` raises ValueError before the request is sent. -/
def checkThreads : Option Int → Except PyErr (List (String × String))
  | none => .ok []
  | some t =>
    if t = 0 then .ok []
    else if 1 ≤ t ∧ t ≤ 16 then .ok [("threads", toString t)]
    else .error (.valueError "Threads must be between 1 and 16")

/-- Extraction of token and type from the creation envelope (client.py
lines 281-285): `not result.data or "token" not in result.data or "type"
not in result.data` is a protocol violation; note that an empty dict is
falsy. -/
def tokenType : JVal → Option (JVal × JVal)
  | .obj fs =>
    if fs.isEmpty then none
    else
      match dictGet fs "token", dictGet fs "type" with
      | some tok, some ty => some (tok, ty)
      | _, _ => none
  | _ => none

/-- AparaviClient.execute_pipeline (client.py lines 224-291).  The
backend is an oracle mapping the index of each request issued by this
call to its response: index 0 is the validation POST, index 1 the
task-creation PUT.  Returns the request trace together with the outcome
(the server-assigned token and type).  Order is exactly that of the
source: the pipeline is validated over the network first, and only then
is the thread-count precondition checked. -/
def execute_pipeline (env : Nat → HttpResp) (name : Option String)
    (threads : Option Int) : List HttpReq × Except PyErr (JVal × JVal) :=
  let vreq : HttpReq := ⟨"POST", "/pipe/validate", []⟩
  match validate_pipe (env 0) with
  | .error e => ([vreq], .error e)
  | .ok _ =>
    match checkThreads threads with
    | .error e => ([vreq], .error e)
    | .ok tparams =>
      let treq : HttpReq := ⟨"PUT", "/task", nameParams name ++ tparams⟩
      match make_request (env 1) with
      | .error e => ([vreq, treq], .error e)
      | .ok j =>
        match resultBaseOf j with
        | .error e => ([vreq, treq], .error e)
        | .ok r =>
          if isErrorStatus r.status then
            ([vreq, treq], .error (.aparaviError "Task execution failed"))
          else
            match tokenType r.data with
            | some (tok, ty) => ([vreq, treq], .ok (tok, ty))
            | none =>
              ([vreq, treq],
               .error (.aparaviError "Server response missing required token or type"))

/-- Readiness test of client.py line 193:
`result.data and result.data.get("serviceUp")` under Python truthiness. -/
def serviceUp (r : ResultBase) : Bool :=
  r.data.truthy &&
    (match r.data with
     | .obj fs => ((dictGet fs "serviceUp").getD .null).truthy
     | _ => false)

/-- Timeout guard of client.py line 182:
`if timeout and (time.time() - start_time) > timeout`.  A timeout of
None or 0 is falsy and never fires (the source itself prints it as
None); otherwise the elapsed time must strictly exceed it. -/
def timeoutFires : Option ℚ → ℚ → Bool
  | none, _ => false
  | some t, e => if t = 0 then false else decide (t < e)

/-- Observable events of the poll loop: the warm-up and backoff sleeps
with their durations, and each status check with its attempt index. -/
inductive PollEvent where
  | sleepEv (d : ℚ)
  | checkEv (attempt : Nat)
deriving DecidableEq

/-- Status checks in an event trace. -/
def countChecks (evs : List PollEvent) : Nat :=
  (evs.filter (fun e => match e with | .checkEv _ => true | .sleepEv _ => false)).length

/-- The retry loop of AparaviClient.wait_for_task_ready (client.py lines
181-222).  `status i` is the outcome of `self.get_task_status` on
attempt `i` (0-based) and `elapsed i` the value of
`time.time() - start_time` read by the timeout guard of that attempt.
`remaining + 1` is the number of attempts still to run, so `remaining =
0` marks the final attempt (`attempt == max_retries - 1` in the source).
Each iteration: timeout guard first, then the status check; a ready
result returns `(True, result)` immediately; TaskNotFoundError is
absorbed, every other status-check error is wrapped into AparaviError
and aborts; on the final attempt a not-found escalates to
TaskNotFoundError and a non-ready result returns `(False, last_status)`;
between attempts the delay grows by 2 and the loop sleeps.  The
interpolated token and counts of the source message strings are elided. -/
def pollLoop (status : Nat → Except PyErr ResultBase) (elapsed : Nat → ℚ)
    (timeout : Option ℚ) :
    Nat → Nat → ℚ → Option ResultBase →
      List PollEvent × Except PyErr (Bool × Option ResultBase)
  | 0, _, _, last => ([], .ok (false, last))
  | remaining + 1, attempt, delay, last =>
    if timeoutFires timeout (elapsed attempt) then
      ([], .error (.taskTimeoutError "Task failed to become ready within timeout"))
    else
      match status attempt with
      | .ok r =>
        if serviceUp r then
          ([.checkEv attempt], .ok (true, some r))
        else if remaining = 0 then
          ([.checkEv attempt], .ok (false, some r))
        else
          let rest := pollLoop status elapsed timeout remaining (attempt + 1)
            (delay + 2) (some r)
          (.checkEv attempt :: .sleepEv (delay + 2) :: rest.1, rest.2)
      | .error (.taskNotFoundError _) =>
        if remaining = 0 then
          ([.checkEv attempt], .error (.taskNotFoundError "Task not found after max retries"))
        else
          let rest := pollLoop status elapsed timeout remaining (attempt + 1)
            (delay + 2) last
          (.checkEv attempt :: .sleepEv (delay + 2) :: rest.1, rest.2)
      | .error e =>
        ([.checkEv attempt],
         .error (.aparaviError ("Error checking task status: " ++ pyErrMsg e)))

/-- AparaviClient.wait_for_task_ready (client.py lines 140-222): one
unconditional warm-up sleep of `initial_delay`, then the retry loop
starting at attempt 0 with `last_status = None`. -/
def wait_for_task_ready (status : Nat → Except PyErr ResultBase)
    (elapsed : Nat → ℚ) (max_retries : Nat) (initial_delay : ℚ)
    (timeout : Option ℚ) :
    List PollEvent × Except PyErr (Bool × Option ResultBase) :=
  let rest := pollLoop status elapsed timeout max_retries 0 initial_delay none
  (.sleepEv initial_delay :: rest.1, rest.2)

/-- A poll attempt that lets the loop continue: either a reachable task
whose service is not yet up, or a not-found report (absorbed before the
final attempt). -/
def contStepOk (status : Nat → Except PyErr ResultBase) (i : Nat) : Prop :=
  (∃ r, status i = .ok r ∧ serviceUp r = false) ∨
  (∃ m, status i = .error (.taskNotFoundError m))

/-- The defensive JSON unwrap of document_processor.py lines 95-102:
`json.loads(text_content)` followed by
`if isinstance(parsed, dict) and "content" in parsed`.  The decode
oracle `loads` models `json.loads` on a string, which can only fail with
json.JSONDecodeError (a ValueError); both that and TypeError are caught
by the source, so a failed decode is `none` and the step is total: it
never raises.  On success with a dict containing "content" the nested
value replaces the text, otherwise the original string is kept. -/
def unwrap_content (loads : String → Option JVal) (s : String) : JVal :=
  match loads s with
  | some (.obj fs) =>
    match dictGet fs "content" with
    | some v => v
    | none => .str s
  | _ => .str s

/-- Whether a decoded value is a dict with a "content" key, the guard of
the unwrap step. -/
def isContentDict : JVal → Bool
  | .obj fs => (dictGet fs "content").isSome
  | _ => false

/-- The text-extraction block of document_processor.py lines 86-107:
navigate `result["data"]["objects"]`, take the first object in iteration
order, read its `text` list and unwrap the first element.  `.ok none`
models falling through to the `raise AparaviError("No text content
found...")` at line 109; `.error` models the uncaught exceptions that
the dynamic navigation can raise on off-shape values (AttributeError on
`.get`/`.values` of non-dicts, KeyError when indexing a dict text value,
TypeError when subscripting an unsubscriptable text value).  A string
text value is truthy when non-empty and `text[0]` is its first
character, as in CPython. -/
def extract_text_step (loads : String → Option JVal) : JVal → Except PyErr (Option JVal)
  | .obj fs =>
    let statusOk : Bool := match dictGet fs "status" with
      | some (.str s) => s = "OK"
      | _ => false
    match (dictGet fs "data").getD (.obj []) with
    | .obj dfs =>
      let objectsVal := (dictGet dfs "objects").getD .null
      if statusOk && objectsVal.truthy then
        match objectsVal with
        | .obj ofs =>
          match ofs with
          | [] => .ok none
          | (_, firstObject) :: _ =>
            match firstObject with
            | .obj obfs =>
              let textVal := (dictGet obfs "text").getD .null
              if textVal.truthy then
                match textVal with
                | .arr (x :: _) =>
                  match x with
                  | .str s => .ok (some (unwrap_content loads s))
                  | other => .ok (some other)
                | .arr [] => .ok none
                | .str s => .ok (some (unwrap_content loads (String.singleton s.front)))
                | .obj _ => .error (.keyError "0")
                | _ => .error (.typeError "text value is not subscriptable")
              else .ok none
            | _ => .error (.attributeError "get")
        | _ => .error (.attributeError "values")
      else .ok none
    | _ => .error (.attributeError "get")
  | _ => .error (.attributeError "get")

/-- Response shape of the facade flow: an OK envelope with a single
object whose text list starts with `s`. -/
def mkEnvelope (oid : String) (s : String) : JVal :=
  .obj [("status", .str "OK"),
        ("data", .obj [("objects",
          .obj [(oid, .obj [("text", .arr [.str s])])])])]

/-- Parameter names of AparaviClient.create_and_wait_for_task
(client.py lines 293-301). -/
def createAndWaitForTaskParams : List String :=
  ["pipeline", "name", "threads", "max_retries", "initial_delay", "timeout"]

/-- Keyword arguments passed at the call site
document_processor.py lines 62-69. -/
def processDocumentCreateCallKwargs : List String :=
  ["pipeline", "name", "type", "max_retries", "initial_delay", "timeout"]

/-- Python keyword binding: a call whose keyword arguments include a
name that is not a parameter of the callee raises TypeError before the
callee body runs. -/
def bindKwargs (accepted given : List String) : Except PyErr Unit :=
  match given.find? (fun k => !accepted.contains k) with
  | some bad =>
    .error (.typeError ("create_and_wait_for_task got an unexpected keyword argument " ++ bad))
  | none => .ok ()

theorem createCall_binding_fails :
    bindKwargs createAndWaitForTaskParams processDocumentCreateCallKwargs =
      .error (.typeError "create_and_wait_for_task got an unexpected keyword argument type") := rfl

/-- Python positional binding for the cleanup call
`self.client.end_task(task_token)` of document_processor.py line 115:
`end_task(self, token, task_type)` requires two arguments beyond self,
so passing one raises TypeError inside the cleanup `try`, where it is
swallowed by `except: pass` - the DELETE request is never issued. -/
def bindPositional (required given : Nat) : Except PyErr Unit :=
  if given < required then
    .error (.typeError "end_task missing 1 required positional argument task_type")
  else .ok ()

theorem cleanup_call_arity_fails :
    bindPositional 2 1 =
      .error (.typeError "end_task missing 1 required positional argument task_type") := rfl

/-- The return type of the facade (DocumentResponse in
document_processor.py; pydantic would coerce text to a string, but the
unwrap step can produce any JSON value, so the field is kept as JVal). -/
structure DocumentResponse where
  text : JVal
  status : String

/-- DocumentProcessor.process_document (document_processor.py lines
42-118).  `env` is the HTTP oracle for the client the facade holds,
`fileExists` the result of `Path(...).exists()`, `fileContent` the text
read from the file and `loads` the JSON decode oracle; the trace lists
the HTTP requests issued.  A missing file raises FileNotFoundError
before any network call.  The call at line 62 passes the keyword
argument `type`, which create_and_wait_for_task (client.py line 293)
does not accept, so CPython raises TypeError while binding the call,
before the client runs: no request is ever issued (the oracle arguments
are dead).  In the handler at line 111 `task_token` is not in
`locals()`, so the cleanup branch is skipped and the bare `raise`
re-raises the TypeError.  The continuation of the body (the 2-element
unpacking of a 3-tuple, the call of the nonexistent method
`post_to_webhook`, the extraction and the cleanup) is unreachable, see
createCall_binding_fails. -/
def process_document (env : Nat → HttpResp) (fileExists : Bool)
    (fileContent : String) (loads : String → Option JVal) :
    List HttpReq × Except PyErr DocumentResponse :=
  if fileExists = false then
    ([], .error (.fileNotFoundError "File not found"))
  else
    match bindKwargs createAndWaitForTaskParams processDocumentCreateCallKwargs with
    | .error e => ([], .error e)
    | .ok _ => ([], .error (.attributeError "post_to_webhook"))

/-- The mocked backend of the end-to-end scenario: request 0 validates
the pipeline, request 1 creates the task and assigns token and type,
requests 2 and 3 are the status checks (serviceUp false then true), and
the upload answers with one object whose text list is ["abc"]. -/
def mockBackend : Nat → HttpResp
  | 0 => .http 200 (some (.obj [("status", .str "OK")])) ""
  | 1 => .http 200 (some (.obj [("status", .str "OK"),
      ("data", .obj [("token", .str "tok-1"), ("type", .str "cpu")])])) ""
  | 2 => .http 200 (some (.obj [("status", .str "OK"),
      ("data", .obj [("serviceUp", .bool false)])])) ""
  | 3 => .http 200 (some (.obj [("status", .str "OK"),
      ("data", .obj [("serviceUp", .bool true)])])) ""
  | _ => .http 200 (some (mkEnvelope "doc1" "abc")) ""

/-- Match test of llama_parse.py line 63:
`component.get("provider") == "llamaparse"`; a missing or non-string
provider never equals the string. -/
def isLlamaFields (fs : List (String × JVal)) : Bool :=
  match dictGet fs "provider" with
  | some (.str p) => p = "llamaparse"
  | _ => false

/-- Key injection into one matched component (llama_parse.py lines
64-66): `component.setdefault("config", {})` then
`config.setdefault("default", {})` then `default["api_key"] = key`.
`setdefault` keeps an existing value and installs the default at the end
of the dict otherwise, which `dictSet` reproduces; a non-dict existing
value would raise AttributeError at the nested `setdefault`. -/
def updateComponent (key : String) (fs : List (String × JVal)) :
    Except PyErr (List (String × JVal)) :=
  match (dictGet fs "config").getD (.obj []) with
  | .obj cfg =>
    match (dictGet cfg "default").getD (.obj []) with
    | .obj dfl =>
      .ok (dictSet fs "config"
        (.obj (dictSet cfg "default" (.obj (dictSet dfl "api_key" (.str key))))))
    | _ => .error (.attributeError "setdefault")
  | _ => .error (.attributeError "setdefault")

/-- The component loop of llama_parse.py lines 62-67: scan the list in
order, inject the key into the first component whose provider is
"llamaparse" and `break`; components after the match are not touched,
components before it are only inspected.  A non-dict component reached
by the scan raises AttributeError at `.get`. -/
def insertIntoComponents (key : String) : List JVal → Except PyErr (List JVal)
  | [] => .ok []
  | c :: rest =>
    match c with
    | .obj fs =>
      if isLlamaFields fs then
        match updateComponent key fs with
        | .ok fs2 => .ok (.obj fs2 :: rest)
        | .error e => .error e
      else
        match insertIntoComponents key rest with
        | .ok rest2 => .ok (.obj fs :: rest2)
        | .error e => .error e
    | _ => .error (.attributeError "get")

/-- LLamaParse.insert_llama_key (llama_parse.py lines 52-70):
`pipeline_data.get("components", [])` followed by the scan; when the
pipeline has no components key the loop runs over a fresh empty list and
the pipeline is returned unchanged.  In the source the update mutates
the matched component in place; functionally this is `dictSet` of the
rebuilt components list.  A components value that is not a list cannot
be iterated into dict components and is modelled as a TypeError (the
precise CPython exception varies with the shape, which no claim
touches). -/
def insert_llama_key (key : String) (pd : List (String × JVal)) :
    Except PyErr (List (String × JVal)) :=
  match (dictGet pd "components").getD (.arr []) with
  | .arr items =>
    match insertIntoComponents key items with
    | .error e => .error e
    | .ok items2 =>
      match dictGet pd "components" with
      | some _ => .ok (dictSet pd "components" (.arr items2))
      | none => .ok pd
  | _ => .error (.typeError "components is not iterable")

/-- The injected component: config.default.api_key set to the key, all
else preserved (see updateComponent). -/
def injDfl (key : String) (dfl : List (String × JVal)) : List (String × JVal) :=
  dictSet dfl "api_key" (.str key)

/-- The injected config dict of the matched component. -/
def injCfg (key : String) (cfg dfl : List (String × JVal)) : List (String × JVal) :=
  dictSet cfg "default" (.obj (injDfl key dfl))

/-- The fully injected component fields. -/
def injComp (key : String) (fs cfg dfl : List (String × JVal)) : List (String × JVal) :=
  dictSet fs "config" (.obj (injCfg key cfg dfl))

theorem dictGet_dictSet_same (fs : List (String × JVal)) (k : String) (v : JVal) :
    dictGet (dictSet fs k v) k = some v := by
  induction fs with
  | nil => simp [dictGet, dictSet]
  | cons h t ih =>
    obtain ⟨k2, v2⟩ := h
    by_cases hk : k2 = k
    · simp [dictGet, dictSet, hk]
    · simp [dictGet, dictSet, hk, ih]

theorem dictGet_dictSet_other (fs : List (String × JVal)) (k k2 : String) (v : JVal)
    (h : k2 ≠ k) : dictGet (dictSet fs k v) k2 = dictGet fs k2 := by
  have hne : k ≠ k2 := fun hh => h hh.symm
  induction fs with
  | nil => simp [dictGet, dictSet, hne]
  | cons hd t ih =>
    obtain ⟨k3, v3⟩ := hd
    by_cases hk : k3 = k
    · subst hk
      simp [dictGet, dictSet, hne]
    · by_cases hk2 : k3 = k2
      · subst hk2
        simp [dictGet, dictSet, hk]
      · simp [dictGet, dictSet, hk, hk2, ih]

theorem dictSet_self (fs : List (String × JVal)) (k : String) (v : JVal)
    (h : dictGet fs k = some v) : dictSet fs k v = fs := by
  induction fs with
  | nil => simp [dictGet] at h
  | cons hd t ih =>
    obtain ⟨k2, v2⟩ := hd
    by_cases hk : k2 = k
    · simp [dictGet, hk] at h
      simp [dictSet, hk, h]
    · simp [dictGet, hk] at h
      simp [dictSet, hk, ih h]

theorem insertIntoComponents_no_match (key : String) (items : List JVal)
    (h : ∀ c ∈ items, ∃ gs, c = JVal.obj gs ∧ isLlamaFields gs = false) :
    insertIntoComponents key items = .ok items := by
  induction items with
  | nil => rfl
  | cons c rest ih =>
    obtain ⟨gs, hc, hgs⟩ := h c (List.mem_cons_self c rest)
    subst hc
    have ihr := ih (fun c2 hc2 => h c2 (List.mem_cons_of_mem _ hc2))
    simp [insertIntoComponents, hgs, ihr]

theorem insertIntoComponents_match (key : String) (pre post : List JVal)
    (fs fs2 : List (String × JVal))
    (hpre : ∀ c ∈ pre, ∃ gs, c = JVal.obj gs ∧ isLlamaFields gs = false)
    (hmatch : isLlamaFields fs = true)
    (hupd : updateComponent key fs = .ok fs2) :
    insertIntoComponents key (pre ++ JVal.obj fs :: post) =
      .ok (pre ++ JVal.obj fs2 :: post) := by
  induction pre with
  | nil => simp [insertIntoComponents, hmatch, hupd]
  | cons c rest ih =>
    obtain ⟨gs, hc, hgs⟩ := hpre c (List.mem_cons_self c rest)
    subst hc
    have ihr := ih (fun c2 hc2 => hpre c2 (List.mem_cons_of_mem _ hc2))
    simp [insertIntoComponents, hgs, ihr]

theorem countChecks_append (l1 l2 : List PollEvent) :
    countChecks (l1 ++ l2) = countChecks l1 + countChecks l2 := by
  simp [countChecks]

theorem countChecks_sleep (d : ℚ) (l : List PollEvent) :
    countChecks (.sleepEv d :: l) = countChecks l := by
  simp [countChecks]

theorem countChecks_check (a : Nat) (l : List PollEvent) :
    countChecks (.checkEv a :: l) = countChecks l + 1 := by
  simp [countChecks, Nat.add_comm]

/-- Skipping lemma for the poll loop: if every one of the first `k`
attempts neither times out nor terminates the loop (the status is
not-up or not-found and `k` attempts are not the whole budget), the loop
runs them, emitting exactly `k` status checks, and continues from
attempt `a + k` with `m - k` attempts left. -/
theorem pollLoop_skip (status : Nat → Except PyErr ResultBase) (elapsed : Nat → ℚ)
    (timeout : Option ℚ) :
    ∀ (k m a : Nat) (delay : ℚ) (last : Option ResultBase),
      k < m →
      (∀ i, i < k →
        timeoutFires timeout (elapsed (a + i)) = false ∧ contStepOk status (a + i)) →
      ∃ (pre : List PollEvent) (delay2 : ℚ) (last2 : Option ResultBase),
        pollLoop status elapsed timeout m a delay last =
          (pre ++ (pollLoop status elapsed timeout (m - k) (a + k) delay2 last2).1,
           (pollLoop status elapsed timeout (m - k) (a + k) delay2 last2).2) ∧
        countChecks pre = k := by
  intro k
  induction k with
  | zero =>
    intro m a delay last _ _
    exact ⟨[], delay, last, by simp, rfl⟩
  | succ k ih =>
    intro m a delay last hk hcont
    obtain ⟨m2, rfl⟩ : ∃ m2, m = m2 + 1 := ⟨m - 1, by omega⟩
    obtain ⟨hto, hcs⟩ := hcont 0 (Nat.succ_pos k)
    have hto2 : timeoutFires timeout (elapsed a) = false := by simpa using hto
    have hm2 : m2 ≠ 0 := by omega
    have hshift : ∀ i, i < k →
        timeoutFires timeout (elapsed (a + 1 + i)) = false ∧
          contStepOk status (a + 1 + i) := by
      intro i hi
      have := hcont (i + 1) (by omega)
      rwa [show a + (i + 1) = a + 1 + i by omega] at this
    have e1 : m2 + 1 - (k + 1) = m2 - k := by omega
    have e2 : a + (k + 1) = a + 1 + k := by omega
    rcases hcs with ⟨r, hr, hup⟩ | ⟨msg, hr⟩
    · have hr2 : status a = .ok r := by simpa using hr
      have step : pollLoop status elapsed timeout (m2 + 1) a delay last =
          (.checkEv a :: .sleepEv (delay + 2) ::
            (pollLoop status elapsed timeout m2 (a + 1) (delay + 2) (some r)).1,
           (pollLoop status elapsed timeout m2 (a + 1) (delay + 2) (some r)).2) := by
        simp [pollLoop, hto2, hr2, hup, hm2]
      obtain ⟨pre, d2, l2, heq, hc⟩ := ih m2 (a + 1) (delay + 2) (some r) (by omega) hshift
      refine ⟨.checkEv a :: .sleepEv (delay + 2) :: pre, d2, l2, ?_, ?_⟩
      · rw [e1, e2, step, heq]
        simp
      · simp [countChecks_check, countChecks_sleep, hc, Nat.add_comm]
    · have hr2 : status a = .error (.taskNotFoundError msg) := by simpa using hr
      have step : pollLoop status elapsed timeout (m2 + 1) a delay last =
          (.checkEv a :: .sleepEv (delay + 2) ::
            (pollLoop status elapsed timeout m2 (a + 1) (delay + 2) last).1,
           (pollLoop status elapsed timeout m2 (a + 1) (delay + 2) last).2) := by
        simp [pollLoop, hto2, hr2, hm2]
      obtain ⟨pre, d2, l2, heq, hc⟩ := ih m2 (a + 1) (delay + 2) last (by omega) hshift
      refine ⟨.checkEv a :: .sleepEv (delay + 2) :: pre, d2, l2, ?_, ?_⟩
      · rw [e1, e2, step, heq]
        simp
      · simp [countChecks_check, countChecks_sleep, hc, Nat.add_comm]

theorem make_request_503_not_found_body :
    make_request (.http 503
      (some (.obj [("error", .obj [("message", .str "Task abc not found")])]))
      "body-text") =
    .error (.aparaviError "API error 503: body-text") := rfl

/-- Claim C5: during the readiness poll a not-found report (or a not-up
status) on any attempt before the last is absorbed without raising and
polling continues, and when the status check of the final attempt
reports not-found the loop raises TaskNotFoundError.  All `N` checks are
performed, so no earlier attempt raised. -/
theorem claim5_notfound_escalates_on_final_attempt
    (status : Nat → Except PyErr ResultBase) (elapsed : Nat → ℚ)
    (timeout : Option ℚ) (N : Nat) (d : ℚ) (m : String)
    (hN : 1 ≤ N)
    (hTO : ∀ i, i < N → timeoutFires timeout (elapsed i) = false)
    (hmid : ∀ i, i + 1 < N → contStepOk status i)
    (hlast : status (N - 1) = .error (.taskNotFoundError m)) :
    (wait_for_task_ready status elapsed N d timeout).2 =
      .error (.taskNotFoundError "Task not found after max retries") ∧
    countChecks (wait_for_task_ready status elapsed N d timeout).1 = N := by
  obtain ⟨pre, d2, l2, heq, hc⟩ := pollLoop_skip status elapsed timeout (N - 1) N 0 d none
    (by omega)
    (fun i hi => ⟨by simpa using hTO i (by omega), by simpa using hmid i (by omega)⟩)
  rw [show N - (N - 1) = 1 by omega, show 0 + (N - 1) = N - 1 by omega] at heq
  have final : pollLoop status elapsed timeout 1 (N - 1) d2 l2 =
      ([.checkEv (N - 1)],
       .error (.taskNotFoundError "Task not found after max retries")) := by
    simp [pollLoop, hTO (N - 1) (by omega), hlast]
  constructor
  · simp [wait_for_task_ready, heq, final]
  · have htr : (wait_for_task_ready status elapsed N d timeout).1 =
        .sleepEv d :: (pre ++ [.checkEv (N - 1)]) := by
      simp [wait_for_task_ready, heq, final]
    rw [htr, countChecks_sleep, countChecks_append, hc, countChecks_check]
    simp [countChecks]
    omega

/-- Claim C6: when no status check reports the service up, no timeout
fires, intermediate attempts are not-up or not-found and the final
attempt is a successful not-up check, the loop performs exactly `N`
status checks after the warm-up sleep and returns `(False, lastStatus)`
without raising, where `lastStatus` is the result of the last successful
status check (the final one). -/
theorem claim6_exhausted_returns_false_last_status
    (status : Nat → Except PyErr ResultBase) (elapsed : Nat → ℚ)
    (timeout : Option ℚ) (N : Nat) (d : ℚ) (r : ResultBase)
    (hN : 1 ≤ N)
    (hTO : ∀ i, i < N → timeoutFires timeout (elapsed i) = false)
    (hmid : ∀ i, i + 1 < N → contStepOk status i)
    (hlast : status (N - 1) = .ok r) (hup : serviceUp r = false) :
    (wait_for_task_ready status elapsed N d timeout).2 = .ok (false, some r) ∧
    countChecks (wait_for_task_ready status elapsed N d timeout).1 = N := by
  obtain ⟨pre, d2, l2, heq, hc⟩ := pollLoop_skip status elapsed timeout (N - 1) N 0 d none
    (by omega)
    (fun i hi => ⟨by simpa using hTO i (by omega), by simpa using hmid i (by omega)⟩)
  rw [show N - (N - 1) = 1 by omega, show 0 + (N - 1) = N - 1 by omega] at heq
  have final : pollLoop status elapsed timeout 1 (N - 1) d2 l2 =
      ([.checkEv (N - 1)], .ok (false, some r)) := by
    simp [pollLoop, hTO (N - 1) (by omega), hlast, hup]
  constructor
  · simp [wait_for_task_ready, heq, final]
  · have htr : (wait_for_task_ready status elapsed N d timeout).1 =
        .sleepEv d :: (pre ++ [.checkEv (N - 1)]) := by
      simp [wait_for_task_ready, heq, final]
    rw [htr, countChecks_sleep, countChecks_append, hc, countChecks_check]
    simp [countChecks]
    omega

/-- Claim C7: with a configured (truthy, hence nonzero) total timeout,
as soon as the elapsed time read before an attempt strictly exceeds it
the loop raises TaskTimeoutError immediately: the check of that attempt
and all later checks are never performed (exactly `k` checks happen),
because the timeout guard runs before each status check. -/
theorem claim7_timeout_checked_before_attempt
    (status : Nat → Except PyErr ResultBase) (elapsed : Nat → ℚ)
    (t : ℚ) (N : Nat) (d : ℚ) (k : Nat)
    (ht : t ≠ 0)
    (hk : k < N)
    (hpre : ∀ i, i < k → elapsed i ≤ t ∧ contStepOk status i)
    (hfire : t < elapsed k) :
    (wait_for_task_ready status elapsed N d (some t)).2 =
      .error (.taskTimeoutError "Task failed to become ready within timeout") ∧
    countChecks (wait_for_task_ready status elapsed N d (some t)).1 = k := by
  have hnofire : ∀ i, i < k → timeoutFires (some t) (elapsed i) = false := by
    intro i hi
    have hle := (hpre i hi).1
    simp [timeoutFires, ht, not_lt.mpr hle]
  obtain ⟨pre, d2, l2, heq, hc⟩ := pollLoop_skip status elapsed (some t) k N 0 d none
    hk (fun i hi => ⟨by simpa using hnofire i hi, by simpa using (hpre i hi).2⟩)
  rw [show 0 + k = k by omega] at heq
  have hfires : timeoutFires (some t) (elapsed k) = true := by
    simp [timeoutFires, ht, hfire]
  obtain ⟨m2, hm2⟩ : ∃ m2, N - k = m2 + 1 := ⟨N - k - 1, by omega⟩
  have final : pollLoop status elapsed (some t) (N - k) k d2 l2 =
      ([], .error (.taskTimeoutError "Task failed to become ready within timeout")) := by
    rw [hm2]
    simp [pollLoop, hfires]
  constructor
  · simp [wait_for_task_ready, heq, final]
  · have htr : (wait_for_task_ready status elapsed N d (some t)).1 =
        .sleepEv d :: (pre ++ []) := by
      simp [wait_for_task_ready, heq, final]
    rw [htr, countChecks_sleep, List.append_nil, hc]

/-- Claim C10: with `max_retries = 0` the poll performs the warm-up
sleep, issues no status check at all and returns `(False, None)` without
raising: the loop body never runs and `last_status` is still None. -/
theorem claim10_zero_retries_returns_false_none
    (status : Nat → Except PyErr ResultBase) (elapsed : Nat → ℚ)
    (d : ℚ) (timeout : Option ℚ) :
    wait_for_task_ready status elapsed 0 d timeout =
      ([.sleepEv d], .ok (false, none)) := rfl

/-- Claim C1 (code bug): with the mocked backend of the end-to-end
scenario (pipeline validates, a token and type are assigned, serviceUp
becomes true on the second status check, the upload answers with one
object whose text list is ["abc"]) and an existing file, the facade does
not return the completed response: the call at document_processor.py
line 62 passes the keyword argument `type`, which
create_and_wait_for_task does not accept, so the TypeError propagates
and no HTTP request is ever issued. -/
theorem claim1_process_document_raises_typeerror :
    process_document mockBackend true "file-contents" (fun _ => none) =
      ([], .error (.typeError
        "create_and_wait_for_task got an unexpected keyword argument type")) := rfl

/-- Claim C4 (code bug): when the facade fails after the create step was
entered, no DELETE /task cleanup request is ever sent (the trace holds
no request at all): the create call itself raises TypeError before
`task_token` is bound, so the cleanup branch at line 113 is skipped, and
even when reached it would call `end_task(task_token)` without the
required `task_type` argument (see cleanup_call_arity_fails); the
original error is re-raised unchanged. -/
theorem claim4_cleanup_never_reaches_server :
    ((process_document mockBackend true "file-contents" (fun _ => none)).1.filter
        (fun req => req.method == "DELETE")) = [] ∧
    (process_document mockBackend true "file-contents" (fun _ => none)).2 =
      .error (.typeError
        "create_and_wait_for_task got an unexpected keyword argument type") :=
  ⟨rfl, rfl⟩

/-- Counterexample to claim C2 as stated: threads = 0 lies outside
[1,16] yet execute_pipeline does not fail at all (the falsy value skips
the range check and the task is created), and threads = 17 does fail
with ValueError but only after the pipeline-validation network round
trip recorded in the trace. -/
theorem claim2_counterexample :
    execute_pipeline mockBackend none (some 0) =
      ([⟨"POST", "/pipe/validate", []⟩, ⟨"PUT", "/task", []⟩],
       .ok (.str "tok-1", .str "cpu")) ∧
    execute_pipeline mockBackend none (some 17) =
      ([⟨"POST", "/pipe/validate", []⟩],
       .error (.valueError "Threads must be between 1 and 16")) :=
  ⟨rfl, rfl⟩

/-- Claim C2 as amended: for every nonzero threads value outside [1,16],
once pipeline validation has succeeded execute_pipeline raises ValueError
locally before the task-creation request - the trace holds exactly the
validation request; threads = 0 is falsy and is treated exactly like an
absent threads argument. -/
theorem claim2_amended_threads_check_after_validation
    (env : Nat → HttpResp) (name : Option String) (r : ResultBase)
    (hv : validate_pipe (env 0) = .ok r) :
    (∀ t : Int, t ≠ 0 → ¬(1 ≤ t ∧ t ≤ 16) →
      execute_pipeline env name (some t) =
        ([⟨"POST", "/pipe/validate", []⟩],
         .error (.valueError "Threads must be between 1 and 16"))) ∧
    execute_pipeline env name (some 0) = execute_pipeline env name none := by
  constructor
  · intro t ht hrange
    simp [execute_pipeline, hv, checkThreads, ht, hrange]
  · simp [execute_pipeline, hv, checkThreads]

theorem claim2_amended_witness :
    execute_pipeline mockBackend none (some 17) =
      ([⟨"POST", "/pipe/validate", []⟩],
       .error (.valueError "Threads must be between 1 and 16")) :=
  (claim2_amended_threads_check_after_validation mockBackend none
    ⟨.str "OK", .null, .null, .null⟩ rfl).1 17 (by decide) (by decide)

/-- Claim C3 as amended: 401 maps to AuthenticationError and 422 to
ValidationError; a response with status exactly 500 whose parsed JSON
body carries an error.message string containing "not found"
case-insensitively raises TaskNotFoundError with that message; every
other status of at least 400 (including every other 5xx, whatever its
body says) raises the generic AparaviError carrying the status code and
the raw body text. -/
theorem claim3_amended_status_mapping (code : Nat) (body : Option JVal) (text : String) :
    (code = 401 → make_request (.http code body text) =
      .error (.authenticationError "Invalid API key or authentication failed")) ∧
    (code = 422 → make_request (.http code body text) =
      .error (.validationError ("Validation error: " ++ text))) ∧
    (∀ m, code = 500 → notFound500 body = some m →
      make_request (.http code body text) = .error (.taskNotFoundError m)) ∧
    (400 ≤ code → code ≠ 401 → code ≠ 422 → (code = 500 → notFound500 body = none) →
      make_request (.http code body text) =
        .error (.aparaviError ("API error " ++ toString code ++ ": " ++ text))) := by
  refine ⟨?_, ?_, ?_, ?_⟩
  · intro h
    subst h
    rfl
  · intro h
    subst h
    rfl
  · intro m h hm
    subst h
    simp [make_request, hm]
  · intro hge h1 h2 h5
    by_cases hc : code = 500
    · subst hc
      simp [make_request, h5 rfl]
    · simp [make_request, h1, h2, hc, hge]

theorem claim3_amended_witness :
    make_request (.http 500
      (some (.obj [("error", .obj [("message", .str "Task xyz Not Found")])])) "t") =
      .error (.taskNotFoundError "Task xyz Not Found") :=
  (claim3_amended_status_mapping 500
    (some (.obj [("error", .obj [("message", .str "Task xyz Not Found")])])) "t").2.2.1
    "Task xyz Not Found" rfl (by decide)

/-- Claim C8: when the first text element decodes (via the json.loads
oracle) to a mapping with a "content" key, the unwrap step returns that
nested value in place of the original string; on decode failure or any
non-matching decoded shape the original string is returned unchanged;
the step is total (all decode exceptions are caught), and the extraction
flow of the facade feeds the first text element of the first object
through exactly this step. -/
theorem claim8_unwrap_content_behavior (loads : String → Option JVal) (s : String) :
    (∀ fs v, loads s = some (.obj fs) → dictGet fs "content" = some v →
      unwrap_content loads s = v) ∧
    (loads s = none → unwrap_content loads s = .str s) ∧
    (∀ j, loads s = some j → isContentDict j = false → unwrap_content loads s = .str s) ∧
    (∀ oid, extract_text_step loads (mkEnvelope oid s) = .ok (some (unwrap_content loads s))) := by
  refine ⟨?_, ?_, ?_, ?_⟩
  · intro fs v h hv
    simp [unwrap_content, h, hv]
  · intro h
    simp [unwrap_content, h]
  · intro j h hj
    cases j with
    | obj fs =>
      cases hcv : dictGet fs "content" with
      | none => simp [unwrap_content, h, hcv]
      | some v => simp [isContentDict, hcv] at hj
    | null => simp [unwrap_content, h]
    | bool b => simp [unwrap_content, h]
    | num q => simp [unwrap_content, h]
    | str s2 => simp [unwrap_content, h]
    | arr xs => simp [unwrap_content, h]
  · intro oid
    rfl

/-- A concrete json.loads oracle mapping one payload to a content dict. -/
def loadsDemo : String → Option JVal := fun s =>
  if s = "payload-with-content" then some (.obj [("content", .str "world")]) else none

theorem claim8_witness :
    unwrap_content loadsDemo "payload-with-content" = .str "world" :=
  (claim8_unwrap_content_behavior loadsDemo "payload-with-content").1
    [("content", .str "world")] (.str "world") rfl rfl

/-- Claim C9: insert_llama_key writes the API key into
config.default.api_key of exactly the first component (in list order)
whose provider is "llamaparse": the components before it and after it
are returned untouched, all fields of the matched component other than
config - and inside config all keys other than default, and inside
default all keys other than api_key - keep their values, every other
field of the pipeline is unchanged, and a pipeline whose components
contain no match (or that has no components key at all) is returned
unmodified without raising. -/
theorem claim9_insert_llama_key_first_match_only (key : String) :
    (∀ (pd : List (String × JVal)) (pre post : List JVal)
        (fs cfg dfl : List (String × JVal)),
      dictGet pd "components" = some (.arr (pre ++ JVal.obj fs :: post)) →
      (∀ c ∈ pre, ∃ gs, c = JVal.obj gs ∧ isLlamaFields gs = false) →
      isLlamaFields fs = true →
      (dictGet fs "config").getD (.obj []) = .obj cfg →
      (dictGet cfg "default").getD (.obj []) = .obj dfl →
      insert_llama_key key pd =
        .ok (dictSet pd "components"
          (.arr (pre ++ JVal.obj (injComp key fs cfg dfl) :: post))) ∧
      dictGet (injComp key fs cfg dfl) "config" = some (.obj (injCfg key cfg dfl)) ∧
      (∀ k2, k2 ≠ "config" → dictGet (injComp key fs cfg dfl) k2 = dictGet fs k2) ∧
      dictGet (injCfg key cfg dfl) "default" = some (.obj (injDfl key dfl)) ∧
      (∀ k2, k2 ≠ "default" → dictGet (injCfg key cfg dfl) k2 = dictGet cfg k2) ∧
      dictGet (injDfl key dfl) "api_key" = some (.str key) ∧
      (∀ k2, k2 ≠ "api_key" → dictGet (injDfl key dfl) k2 = dictGet dfl k2) ∧
      (∀ k2, k2 ≠ "components" →
        dictGet (dictSet pd "components"
          (.arr (pre ++ JVal.obj (injComp key fs cfg dfl) :: post))) k2 =
        dictGet pd k2)) ∧
    (∀ (pd : List (String × JVal)) (items : List JVal),
      dictGet pd "components" = some (.arr items) →
      (∀ c ∈ items, ∃ gs, c = JVal.obj gs ∧ isLlamaFields gs = false) →
      insert_llama_key key pd = .ok pd) ∧
    (∀ pd : List (String × JVal),
      dictGet pd "components" = none → insert_llama_key key pd = .ok pd) := by
  refine ⟨?_, ?_, ?_⟩
  · intro pd pre post fs cfg dfl hcomp hpre hm hcfg hdfl
    have hupd : updateComponent key fs = .ok (injComp key fs cfg dfl) := by
      simp [updateComponent, hcfg, hdfl, injComp, injCfg, injDfl]
    have hins := insertIntoComponents_match key pre post fs
      (injComp key fs cfg dfl) hpre hm hupd
    refine ⟨?_, ?_, ?_, ?_, ?_, ?_, ?_, ?_⟩
    · simp [insert_llama_key, hcomp, hins]
    · exact dictGet_dictSet_same fs "config" _
    · intro k2 hk2
      exact dictGet_dictSet_other fs "config" k2 _ hk2
    · exact dictGet_dictSet_same cfg "default" _
    · intro k2 hk2
      exact dictGet_dictSet_other cfg "default" k2 _ hk2
    · exact dictGet_dictSet_same dfl "api_key" _
    · intro k2 hk2
      exact dictGet_dictSet_other dfl "api_key" k2 _ hk2
    · intro k2 hk2
      exact dictGet_dictSet_other pd "components" k2 _ hk2
  · intro pd items hcomp hnom
    have hins := insertIntoComponents_no_match key items hnom
    have hself := dictSet_self pd "components" (.arr items) hcomp
    simp [insert_llama_key, hcomp, hins, hself]
  · intro pd hnone
    simp [insert_llama_key, hnone, insertIntoComponents]

/-- A one-component pipeline for the witness. -/
def llamaPd : List (String × JVal) :=
  [("components", .arr [JVal.obj [("provider", .str "llamaparse")]])]

theorem claim9_witness :
    insert_llama_key "KEY" llamaPd =
      .ok (dictSet llamaPd "components"
        (.arr ([] ++ JVal.obj
          (injComp "KEY" [("provider", .str "llamaparse")] [] []) :: []))) :=
  ((claim9_insert_llama_key_first_match_only "KEY").1 llamaPd [] []
    [("provider", .str "llamaparse")] [] [] rfl
    (fun c hc => absurd hc (List.not_mem_nil c)) rfl rfl rfl).1

/-- Concrete oracles for the poll-loop witnesses. -/
def statusNotFoundAlways : Nat → Except PyErr ResultBase := fun _ =>
  .error (.taskNotFoundError "task tok-1 not found")

/-- A status envelope whose service is not up. -/
def notUpResult : ResultBase :=
  ⟨.str "OK", .obj [("serviceUp", .bool false)], .null, .null⟩

def statusNotUpAlways : Nat → Except PyErr ResultBase := fun _ => .ok notUpResult

def elapsedZero : Nat → ℚ := fun _ => 0

theorem claim5_witness :
    (wait_for_task_ready statusNotFoundAlways elapsedZero 2 2 none).2 =
      .error (.taskNotFoundError "Task not found after max retries") ∧
    countChecks (wait_for_task_ready statusNotFoundAlways elapsedZero 2 2 none).1 = 2 :=
  claim5_notfound_escalates_on_final_attempt statusNotFoundAlways elapsedZero none 2 2
    "task tok-1 not found" (by decide) (fun i _ => rfl)
    (fun i _ => Or.inr ⟨"task tok-1 not found", rfl⟩) rfl

theorem claim6_witness :
    (wait_for_task_ready statusNotUpAlways elapsedZero 2 2 none).2 =
      .ok (false, some notUpResult) ∧
    countChecks (wait_for_task_ready statusNotUpAlways elapsedZero 2 2 none).1 = 2 :=
  claim6_exhausted_returns_false_last_status statusNotUpAlways elapsedZero none 2 2
    notUpResult (by decide) (fun i _ => rfl)
    (fun i _ => Or.inl ⟨notUpResult, rfl, rfl⟩) rfl rfl

/-- Elapsed clock for the timeout witness: within budget before attempt
0, over budget before attempt 1. -/
def elapsedRamp : Nat → ℚ := fun i => if i = 0 then 1 else 10

theorem claim7_witness :
    (wait_for_task_ready statusNotUpAlways elapsedRamp 3 2 (some 5)).2 =
      .error (.taskTimeoutError "Task failed to become ready within timeout") ∧
    countChecks (wait_for_task_ready statusNotUpAlways elapsedRamp 3 2 (some 5)).1 = 1 :=
  claim7_timeout_checked_before_attempt statusNotUpAlways elapsedRamp 5 3 2 1
    (by norm_num) (by omega)
    (fun i hi => by
      have hi0 : i = 0 := by omega
      subst hi0
      exact ⟨by norm_num [elapsedRamp], Or.inl ⟨notUpResult, rfl, rfl⟩⟩)
    (by norm_num [elapsedRamp])
